import Mathlib

/-!
Verification development for the SuperNavi cloud sync service.

The first half embeds the event ingestion and projection pipeline of
`src/sync/eventStore.ts`, `src/sync/projections.ts` (the variant with the
merge policy and slide resolution fallback, the one the read-model claims
refer to), `src/sync/schemas.ts` and `src/sync/routes.ts`.  JSON payloads
are modelled by the `JsonV` type; the zod payload schemas become parsers
from `JsonV` into typed payload structures; the Prisma tables become lists
of records inside `DB`; `createMany` under the unique index
`events_event_id_key` becomes an `Except`-valued insert that fails when the
inserted batch repeats an `event_id`.  Two format checks of zod that the
claims never depend on are abstracted: `z.string().datetime()` and
`z.string().url()` are both modelled as plain string fields.

The second half embeds the edge tunnel of `src/modules/edge/routes.ts` and
the connection manager (registerEdge / sendHttpRequest /
handleHttpResponse).  The process-wide `Map` of connections is an explicit
association list threaded through the operations; side effects on sockets,
timers and promise callbacks are reified as a `TunnelAction` list; the
armed `setTimeout` timer is recorded by its duration and fired explicitly.
-/

/-- A JSON value, the shape of an incoming event payload. -/
inductive JsonV where
  | str (s : String)
  | num (q : Rat)
  | bool (b : Bool)
  | null
  | obj (fields : List (String × JsonV))
  | arr (elems : List JsonV)

/-- An event as it arrives in a sync batch (`EventInput` in `schemas.ts`,
already past the request-level `eventSchema`). -/
structure EventInput where
  event_id : String
  edge_id : String
  aggregate_type : String
  aggregate_id : String
  type : String
  occurred_at : String
  payload : JsonV

/-- A row of the `events` table (append-only event log). -/
structure StoredEvent where
  eventId : String
  edgeId : String
  aggregateType : String
  aggregateId : String
  type : String
  occurredAt : String
  payload : JsonV

/-- A row of `cases_read`. -/
structure CaseRead where
  caseId : String
  title : String
  patientRef : String
  status : String
  createdAt : String
  updatedAt : String
  lastEventId : String
  lastOccurredAt : String
deriving DecidableEq

/-- A row of `slides_read`.  The `external*` columns exist in the table; the
`SlideRegistered` schema strips unknown payload keys, so the projection can
only ever write `none` / `false` into them on create. -/
structure SlideRead where
  slideId : String
  caseId : Option String
  svsFilename : String
  width : Int
  height : Int
  mpp : Rat
  scanner : Option String
  hasPreview : Bool
  externalCaseId : Option String
  externalCaseBase : Option String
  externalSlideLabel : Option String
  confirmedCaseLink : Bool
  lastEventId : String
  lastOccurredAt : String
deriving DecidableEq

/-- A row of `preview_assets` (one-to-one with a slide). -/
structure PreviewAsset where
  slideId : String
  caseId : Option String
  wasabiBucket : String
  wasabiRegion : String
  wasabiEndpoint : String
  wasabiPrefix : String
  thumbKey : String
  manifestKey : String
  lowTilesPrefix : String
  maxPreviewLevel : Int
  previewWidth : Option Int
  previewHeight : Option Int
  tileSize : Int
  format : String
  publishedAt : String
  lastEventId : String
  lastOccurredAt : String
deriving DecidableEq

/-- The relational store: the event log plus the three read models. -/
structure DB where
  events : List StoredEvent
  cases : List CaseRead
  slides : List SlideRead
  previews : List PreviewAsset

/-- Parsed `CaseUpserted` payload (`caseUpsertedPayloadSchema`).  Field
names are the camel-cased versions of the snake_case JSON keys. -/
structure CaseUpsertedPayload where
  caseId : String
  title : String
  patientRef : String
  status : String
  createdAt : String
  updatedAt : String
deriving DecidableEq

/-- Parsed `SlideRegistered` payload (`slideRegisteredPayloadSchema`). -/
structure SlideRegisteredPayload where
  slideId : String
  caseId : String
  svsFilename : String
  width : Int
  height : Int
  mpp : Rat
  scanner : Option String
deriving DecidableEq

/-- Parsed `PreviewPublished` payload (`previewPublishedPayloadSchema`). -/
structure PreviewPublishedPayload where
  slideId : String
  caseId : String
  wasabiBucket : String
  wasabiRegion : String
  wasabiEndpoint : String
  wasabiPrefix : String
  thumbKey : String
  manifestKey : String
  tilesPrefix : Option String
  lowTilesPrefix : Option String
  maxPreviewLevel : Int
  tileSize : Int
  format : String
deriving DecidableEq

/-- Look up a key of a JSON object (first occurrence). -/
def getField (fs : List (String × JsonV)) (k : String) : Option JsonV :=
  (fs.find? (fun p => p.1 == k)).map (·.2)

/-- Required string field with a zod `.min` length bound. -/
def reqStr (fs : List (String × JsonV)) (k : String) (minLen : Nat) : Option String :=
  match getField fs k with
  | some (JsonV.str s) => if minLen ≤ s.length then some s else none
  | _ => none

/-- Optional string field (absent is fine, any other type fails). -/
def optStr (fs : List (String × JsonV)) (k : String) (minLen : Nat) : Option (Option String) :=
  match getField fs k with
  | none => some none
  | some (JsonV.str s) => if minLen ≤ s.length then some (some s) else none
  | _ => none

/-- Required `z.number().int().positive()` field. -/
def reqPosInt (fs : List (String × JsonV)) (k : String) : Option Int :=
  match getField fs k with
  | some (JsonV.num q) => if q.den = 1 ∧ 0 < q.num then some q.num else none
  | _ => none

/-- Required `z.number().int().nonnegative()` field. -/
def reqNonnegInt (fs : List (String × JsonV)) (k : String) : Option Int :=
  match getField fs k with
  | some (JsonV.num q) => if q.den = 1 ∧ 0 ≤ q.num then some q.num else none
  | _ => none

/-- Required `z.number().positive()` field. -/
def reqPosRat (fs : List (String × JsonV)) (k : String) : Option Rat :=
  match getField fs k with
  | some (JsonV.num q) => if 0 < q then some q else none
  | _ => none

/-- `caseUpsertedPayloadSchema.safeParse`.  The two `datetime` fields are
modelled as plain strings (format check abstracted). -/
def caseUpsertedParse (payload : JsonV) : Option CaseUpsertedPayload :=
  match payload with
  | JsonV.obj fs => do
    let caseId ← reqStr fs "case_id" 1
    let title ← reqStr fs "title" 0
    let patientRef ← reqStr fs "patient_ref" 0
    let status ←
      match getField fs "status" with
      | none => some "active"
      | some (JsonV.str s) => if s == "active" || s == "archived" then some s else none
      | _ => none
    let createdAt ← reqStr fs "created_at" 0
    let updatedAt ← reqStr fs "updated_at" 0
    some { caseId := caseId, title := title, patientRef := patientRef, status := status,
           createdAt := createdAt, updatedAt := updatedAt }
  | _ => none

/-- `slideRegisteredPayloadSchema.safeParse`. -/
def slideRegisteredParse (payload : JsonV) : Option SlideRegisteredPayload :=
  match payload with
  | JsonV.obj fs => do
    let slideId ← reqStr fs "slide_id" 1
    let caseId ← reqStr fs "case_id" 1
    let svsFilename ← reqStr fs "svs_filename" 0
    let width ← reqPosInt fs "width"
    let height ← reqPosInt fs "height"
    let mpp ← reqPosRat fs "mpp"
    let scanner ← optStr fs "scanner" 0
    some { slideId := slideId, caseId := caseId, svsFilename := svsFilename,
           width := width, height := height, mpp := mpp, scanner := scanner }
  | _ => none

/-- `previewPublishedPayloadSchema.safeParse`, including the `.refine` that
at least one of the two tiles-prefix fields is present.  The
`z.string().url()` check on the endpoint is abstracted to a string. -/
def previewPublishedParse (payload : JsonV) : Option PreviewPublishedPayload :=
  match payload with
  | JsonV.obj fs => do
    let slideId ← reqStr fs "slide_id" 1
    let caseId ← reqStr fs "case_id" 1
    let wasabiBucket ← reqStr fs "wasabi_bucket" 1
    let wasabiRegion ← reqStr fs "wasabi_region" 1
    let wasabiEndpoint ← reqStr fs "wasabi_endpoint" 0
    let wasabiPrefix ← reqStr fs "wasabi_prefix" 1
    let thumbKey ← reqStr fs "thumb_key" 1
    let manifestKey ← reqStr fs "manifest_key" 1
    let tilesPrefix ← optStr fs "tiles_prefix" 1
    let lowTilesPrefix ← optStr fs "low_tiles_prefix" 1
    let maxPreviewLevel ← reqNonnegInt fs "max_preview_level"
    let tileSize ← reqPosInt fs "tile_size"
    let format ← reqStr fs "format" 1
    if tilesPrefix.isSome || lowTilesPrefix.isSome then
      some { slideId := slideId, caseId := caseId, wasabiBucket := wasabiBucket,
             wasabiRegion := wasabiRegion, wasabiEndpoint := wasabiEndpoint,
             wasabiPrefix := wasabiPrefix, thumbKey := thumbKey, manifestKey := manifestKey,
             tilesPrefix := tilesPrefix, lowTilesPrefix := lowTilesPrefix,
             maxPreviewLevel := maxPreviewLevel, tileSize := tileSize, format := format }
    else none
  | _ => none

/-- Result of projecting one event (`ProjectionResult` in `projections.ts`). -/
structure ProjectionResult where
  success : Bool
  error : Option String
deriving DecidableEq

/-- Generic Prisma `upsert` on a list keyed by a predicate: update every
matching row if one exists, otherwise append the `create` record. -/
def upsertBy (found : α → Bool) (create : α) (update : α → α) (xs : List α) : List α :=
  if xs.any found then xs.map (fun x => if found x then update x else x) else xs ++ [create]

/-- Projection of a `CaseUpserted` event onto `cases_read`
(`projectCaseUpserted`): full-replace upsert by case id. -/
def projectCaseUpserted (db : DB) (event : EventInput) : DB × ProjectionResult :=
  match caseUpsertedParse event.payload with
  | none => (db, { success := false, error := some "Invalid CaseUpserted payload" })
  | some payload =>
    let cases := upsertBy (fun c => c.caseId == payload.caseId)
      { caseId := payload.caseId, title := payload.title, patientRef := payload.patientRef,
        status := payload.status, createdAt := payload.createdAt, updatedAt := payload.updatedAt,
        lastEventId := event.event_id, lastOccurredAt := event.occurred_at }
      (fun c => { c with
        title := payload.title, patientRef := payload.patientRef,
        status := payload.status, updatedAt := payload.updatedAt,
        lastEventId := event.event_id, lastOccurredAt := event.occurred_at })
      db.cases
    ({ db with cases := cases }, { success := true, error := none })

/-- Projection of a `SlideRegistered` event onto `slides_read`
(`projectSlideRegistered`).  The create branch mirrors the source field by
field; `payload.mpp || 0.25` is the JS falsy-guard on the number, and the
`external_*` reads are always `undefined` because the payload schema strips
unknown keys, so the create branch writes `none` / `false` there and the
conditional update spreads for them never fire.  In the update branch the
width/height/mpp writes are guarded by positivity and the caseId write by
truthiness (non-empty string), while `scanner := payload.scanner` mirrors
the unconditional `scanner: payload.scanner ?? null`. -/
def projectSlideRegistered (db : DB) (event : EventInput) : DB × ProjectionResult :=
  match slideRegisteredParse event.payload with
  | none => (db, { success := false, error := some "Invalid SlideRegistered payload" })
  | some payload =>
    let slides := upsertBy (fun s => s.slideId == payload.slideId)
      { slideId := payload.slideId,
        caseId := some payload.caseId,
        svsFilename := payload.svsFilename,
        width := payload.width,
        height := payload.height,
        mpp := if payload.mpp == 0 then (0.25 : Rat) else payload.mpp,
        scanner := payload.scanner,
        hasPreview := false,
        externalCaseId := none,
        externalCaseBase := none,
        externalSlideLabel := none,
        confirmedCaseLink := false,
        lastEventId := event.event_id, lastOccurredAt := event.occurred_at }
      (fun s => { s with
        caseId := if payload.caseId != "" then some payload.caseId else s.caseId,
        svsFilename := payload.svsFilename,
        width := if payload.width > 0 then payload.width else s.width,
        height := if payload.height > 0 then payload.height else s.height,
        mpp := if payload.mpp > 0 then payload.mpp else s.mpp,
        scanner := payload.scanner,
        lastEventId := event.event_id, lastOccurredAt := event.occurred_at })
      db.slides
    ({ db with slides := slides }, { success := true, error := none })

/-- The tiles-prefix source field: `payload.tiles_prefix ?? payload.low_tiles_prefix`
(prefer the non-legacy name). -/
def rawTilesPrefixOf (payload : PreviewPublishedPayload) : Option String :=
  match payload.tilesPrefix with
  | some t => some t
  | none => payload.lowTilesPrefix

/-- Embeds the JS `path.endsWith(sep)` check for the one-character path
separator as a test on the final character of the string. -/
def ensureTrailingSlash (path : String) : String :=
  if path.data.getLast? = some '/' then path else path ++ "/"

/-- The write phase of `projectPreviewPublished` once a target slide has
been resolved (source lines following the resolution: mark
`hasPreview=true` on the resolved slide and upsert the preview asset keyed
by `existingSlide.slideId`, with the normalized tiles prefix).  Since
`case_id` is required by the payload schema, `payload.case_id ??
existingSlide.caseId` is the payload value, and `preview_width` /
`preview_height` are always absent after parsing. -/
def applyPreviewToSlide (db : DB) (event : EventInput) (payload : PreviewPublishedPayload)
    (tilesPrefix : String) (existingSlide : SlideRead) : DB × ProjectionResult :=
  let caseId : Option String := some payload.caseId
  let slides := db.slides.map (fun s =>
    if s.slideId == existingSlide.slideId then
      { s with
        hasPreview := true,
        lastEventId := event.event_id, lastOccurredAt := event.occurred_at }
    else s)
  let actualSlideId := existingSlide.slideId
  let previews := upsertBy (fun a => a.slideId == actualSlideId)
    { slideId := actualSlideId, caseId := caseId,
      wasabiBucket := payload.wasabiBucket, wasabiRegion := payload.wasabiRegion,
      wasabiEndpoint := payload.wasabiEndpoint, wasabiPrefix := payload.wasabiPrefix,
      thumbKey := payload.thumbKey, manifestKey := payload.manifestKey,
      lowTilesPrefix := tilesPrefix, maxPreviewLevel := payload.maxPreviewLevel,
      previewWidth := none, previewHeight := none,
      tileSize := payload.tileSize, format := payload.format,
      publishedAt := event.occurred_at,
      lastEventId := event.event_id, lastOccurredAt := event.occurred_at }
    (fun a => { a with
      caseId := caseId,
      wasabiBucket := payload.wasabiBucket, wasabiRegion := payload.wasabiRegion,
      wasabiEndpoint := payload.wasabiEndpoint, wasabiPrefix := payload.wasabiPrefix,
      thumbKey := payload.thumbKey, manifestKey := payload.manifestKey,
      lowTilesPrefix := tilesPrefix, maxPreviewLevel := payload.maxPreviewLevel,
      previewWidth := none, previewHeight := none,
      tileSize := payload.tileSize, format := payload.format,
      publishedAt := event.occurred_at,
      lastEventId := event.event_id, lastOccurredAt := event.occurred_at })
    db.previews
  ({ db with slides := slides, previews := previews }, { success := true, error := none })

/-- Projection of a `PreviewPublished` event (`projectPreviewPublished`):
resolve the target slide by exact id, else fall back to the unique
`hasPreview=false` slide of the payload case (`findMany` with `take: 10`
followed by a length-1 check); with no target, skip as a successful no-op. -/
def projectPreviewPublished (db : DB) (event : EventInput) : DB × ProjectionResult :=
  match previewPublishedParse event.payload with
  | none => (db, { success := false, error := some "Invalid PreviewPublished payload" })
  | some payload =>
    match rawTilesPrefixOf payload with
    | none =>
      (db, { success := false,
             error := some "PreviewPublished payload missing both tiles fields" })
    | some raw =>
      let tilesPrefix := ensureTrailingSlash raw
      match db.slides.find? (fun s => s.slideId == payload.slideId) with
      | some existingSlide => applyPreviewToSlide db event payload tilesPrefix existingSlide
      | none =>
        let slidesWithoutPreview :=
          (db.slides.filter (fun s => !s.hasPreview && s.caseId == some payload.caseId)).take 10
        match slidesWithoutPreview with
        | [matched] => applyPreviewToSlide db event payload tilesPrefix matched
        | _ => (db, { success := true, error := none })

/-- The slide-resolution order of `projectPreviewPublished` on its own:
exact id match first, then the unique preview-less slide of the case. -/
def resolveTarget (db : DB) (payload : PreviewPublishedPayload) : Option SlideRead :=
  match db.slides.find? (fun s => s.slideId == payload.slideId) with
  | some s => some s
  | none =>
    match (db.slides.filter (fun s => !s.hasPreview && s.caseId == some payload.caseId)).take 10 with
    | [s] => some s
    | _ => none

/-- Dispatch of `projectEvent`: unknown event types are accepted but not
projected. -/
def projectEvent (db : DB) (event : EventInput) : DB × ProjectionResult :=
  match event.type with
  | "CaseUpserted" => projectCaseUpserted db event
  | "SlideRegistered" => projectSlideRegistered db event
  | "PreviewPublished" => projectPreviewPublished db event
  | _ => (db, { success := true, error := none })

/-- Per-event rejection record (`event_id` plus a human-readable reason). -/
structure Rejection where
  event_id : String
  reason : String
deriving DecidableEq

/-- Result of one ingestion batch (`EventStoreResult`). -/
structure EventStoreResult where
  accepted : List String
  duplicated : List String
  rejected : List Rejection
deriving DecidableEq

/-- The rejection list built by the origin check of `ingestEvents`: every
event whose embedded `edge_id` differs from the claimed one.  The quote
characters of the source reason string are not reproduced. -/
def rejectionsOf (edgeId : String) (events : List EventInput) : List Rejection :=
  (events.filter (fun e => e.edge_id != edgeId)).map (fun e =>
    { event_id := e.event_id,
      reason := "Event edge_id " ++ e.edge_id ++ " does not match request edge_id " ++ edgeId })

/-- The post-filter batch of `ingestEvents`: events are kept only when no
rejection carries their `event_id` (note: membership by id, not identity). -/
def validEventsOf (edgeId : String) (events : List EventInput) : List EventInput :=
  events.filter (fun e => !((rejectionsOf edgeId events).any (fun r => r.event_id == e.event_id)))

/-- Membership of an id in the event log (`findExistingEventIds`
restricted to one id of the queried batch). -/
def eventIdExists (db : DB) (id : String) : Bool :=
  db.events.any (fun ev => ev.eventId == id)

/-- The ids reported as duplicated: valid events already present in the log. -/
def duplicatedOf (db : DB) (edgeId : String) (events : List EventInput) : List String :=
  ((validEventsOf edgeId events).filter (fun e => eventIdExists db e.event_id)).map (·.event_id)

/-- The events that reach the durable append: valid and not yet in the log. -/
def newEventsOf (db : DB) (edgeId : String) (events : List EventInput) : List EventInput :=
  (validEventsOf edgeId events).filter (fun e => !(eventIdExists db e.event_id))

/-- The `events` row written for one event by `createMany`. -/
def storedOf (e : EventInput) : StoredEvent :=
  { eventId := e.event_id, edgeId := e.edge_id, aggregateType := e.aggregate_type,
    aggregateId := e.aggregate_id, type := e.type, occurredAt := e.occurred_at,
    payload := e.payload }

/-- Whether a list of ids repeats an element (the situation in which the
unique index `events_event_id_key` fires inside `createMany`). -/
def hasPairwiseDup : List String → Bool
  | [] => false
  | x :: xs => xs.contains x || hasPairwiseDup xs

/-- The ingestion coordinator (`ingestEvents`, transaction variant): origin
check, dedup query, atomic `createMany`, then per-event projection whose
outcome never removes the event from `accepted`.  `createMany` is called
without `skipDuplicates`, so a batch whose new events repeat an `event_id`
violates the unique index, aborts the surrounding transaction and
surfaces as an error (the ids clashing with the log itself were already
diverted to `duplicated` by the dedup query). -/
def ingestEvents (db : DB) (edgeId : String) (events : List EventInput) :
    Except String (DB × EventStoreResult) :=
  if events.isEmpty then
    Except.ok (db, { accepted := [], duplicated := [], rejected := [] })
  else
    let rejected := rejectionsOf edgeId events
    let validEvents := validEventsOf edgeId events
    if validEvents.isEmpty then
      Except.ok (db, { accepted := [], duplicated := [], rejected := rejected })
    else
      let duplicated := duplicatedOf db edgeId events
      let newEvents := newEventsOf db edgeId events
      if newEvents.isEmpty then
        Except.ok (db, { accepted := [], duplicated := duplicated, rejected := rejected })
      else
        if hasPairwiseDup (newEvents.map (·.event_id)) then
          Except.error "Unique constraint failed on the fields: (eventId)"
        else
          let dbStored := { db with events := db.events ++ newEvents.map storedOf }
          let dbFinal := newEvents.foldl (fun acc e => (projectEvent acc e).1) dbStored
          Except.ok (dbFinal,
            { accepted := newEvents.map (·.event_id), duplicated := duplicated,
              rejected := rejected })

/-- The response body of a successful sync (`SyncResponse`). -/
structure SyncResponse where
  accepted : Nat
  duplicated : Nat
  rejected : List Rejection
  lastCursor : Option String
deriving DecidableEq

/-- Counts and rejections of the store result (`buildSyncResponse`). -/
def buildSyncResponse (storeResult : EventStoreResult) (cursor : Option String) : SyncResponse :=
  { accepted := storeResult.accepted.length, duplicated := storeResult.duplicated.length,
    rejected := storeResult.rejected, lastCursor := cursor }

/-- Outcome of the events endpoint: 200 with a body, or the catch-all 500. -/
inductive RouteReply where
  | ok (resp : SyncResponse)
  | serverError (message : String)
deriving DecidableEq

/-- The `POST /sync/v1/events` handler after request validation
(`syncRoutes`): a throwing `ingestEvents` is caught and answered with the
batch-level 500, leaving the store as the rolled-back transaction left it. -/
def syncEventsRoute (db : DB) (edgeId : String) (cursor : Option String)
    (events : List EventInput) : DB × RouteReply :=
  match ingestEvents db edgeId events with
  | Except.ok (db2, storeResult) => (db2, RouteReply.ok (buildSyncResponse storeResult cursor))
  | Except.error _ => (db, RouteReply.serverError "Internal server error during event ingestion")

/-- An in-flight request record (`PendingRequest`).  The resolve and
reject callbacks are reified as `TunnelAction`s emitted when the entry is
settled; the `setTimeout` handle is recorded by the duration it was armed
with. -/
structure PendingRequest where
  timerMs : Nat
  startedAt : Nat
deriving DecidableEq

/-- One edge connection (`EdgeConnection`), the transport handle being an
opaque socket id. -/
structure EdgeConnection where
  wsId : Nat
  agentId : String
  connectedAt : Nat
  lastSeen : Nat
  pendingRequests : List (String × PendingRequest)
deriving DecidableEq

/-- The process-wide `edgeConnections` map, as an association list in
insertion order. -/
abbrev EdgeConnections := List (String × EdgeConnection)

/-- Observable side effects of the connection manager: socket closes and
sends, timer cancellations, promise settlements, and the two warn logs. -/
inductive TunnelAction where
  | closeWs (wsId : Nat) (code : Nat) (reason : String)
  | cancelTimer (requestId : String)
  | rejectPending (requestId : String) (error : String)
  | resolvePending (requestId : String) (statusCode : Int)
  | wsSend (wsId : Nat) (requestId : String)
  | warnUnknownAgent (agentId : String)
  | warnUnknownRequest (requestId : String)
deriving DecidableEq

/-- JS `Map.get`. -/
def mapGet? (m : List (String × α)) (k : String) : Option α :=
  (m.find? (fun kv => kv.1 == k)).map (·.2)

/-- JS `Map.set`: overwrite in place if the key exists, else append. -/
def mapSet (m : List (String × α)) (k : String) (v : α) : List (String × α) :=
  if m.any (fun kv => kv.1 == k) then
    m.map (fun kv => if kv.1 == k then (k, v) else kv)
  else m ++ [(k, v)]

/-- JS `Map.delete`. -/
def mapDelete (m : List (String × α)) (k : String) : List (String × α) :=
  m.filter (fun kv => !(kv.1 == k))

/-- `registerEdge`: when a live connection already exists for the id, close
its socket with code 1000 and reason `Replaced by new connection`, clear
each pending timer and reject each pending request with `Connection
replaced`; then install the fresh connection with an empty pending map. -/
def registerEdge (conns : EdgeConnections) (agentId : String) (wsId : Nat) (now : Nat) :
    EdgeConnections × List TunnelAction :=
  let acts :=
    match mapGet? conns agentId with
    | some existing =>
        TunnelAction.closeWs existing.wsId 1000 "Replaced by new connection" ::
        existing.pendingRequests.flatMap (fun rp =>
          [TunnelAction.cancelTimer rp.1, TunnelAction.rejectPending rp.1 "Connection replaced"])
    | none => []
  (mapSet conns agentId
    { wsId := wsId, agentId := agentId, connectedAt := now, lastSeen := now,
      pendingRequests := [] },
   acts)

/-- `unregisterEdge`: drop the entry and reject its pending requests with
`Edge disconnected`. -/
def unregisterEdge (conns : EdgeConnections) (agentId : String) :
    EdgeConnections × List TunnelAction :=
  match mapGet? conns agentId with
  | none => (conns, [])
  | some connection =>
    (mapDelete conns agentId,
     connection.pendingRequests.flatMap (fun rp =>
       [TunnelAction.cancelTimer rp.1, TunnelAction.rejectPending rp.1 "Edge disconnected"]))

/-- The request half of the tunnel wire message, sans the constant tag. -/
structure TunnelHttpRequest where
  requestId : String
  method : String
  url : String
  headers : List (String × String)
  bodyBase64 : Option String
deriving DecidableEq

/-- The response half of the tunnel wire message. -/
structure TunnelHttpResponse where
  requestId : String
  statusCode : Int
  headers : List (String × String)
  bodyBase64 : Option String
deriving DecidableEq

/-- `sendHttpRequest` up to its suspension point: fail fast when the agent
is not connected; otherwise arm a timer with `timeoutMs`, register the
pending entry and send over the socket.  A synchronous send failure
(`sendOk = false`) clears the timer, removes the entry again and rejects
the caller, leaving the net state unchanged.  `Except.ok` means the caller
is now suspended on the pending entry. -/
def sendHttpRequest (conns : EdgeConnections) (agentId : String) (request : TunnelHttpRequest)
    (timeoutMs : Nat) (now : Nat) (sendOk : Bool) :
    EdgeConnections × List TunnelAction × Except String Unit :=
  match mapGet? conns agentId with
  | none => (conns, [], Except.error ("Agent " ++ agentId ++ " is not connected"))
  | some connection =>
    if sendOk then
      let connection2 := { connection with
        pendingRequests := mapSet connection.pendingRequests request.requestId
          { timerMs := timeoutMs, startedAt := now } }
      (mapSet conns agentId connection2,
       [TunnelAction.wsSend connection.wsId request.requestId],
       Except.ok ())
    else
      (conns, [TunnelAction.cancelTimer request.requestId],
       Except.error "Failed to send request")

/-- The body of the `setTimeout` callback armed by `sendHttpRequest`: it
unconditionally deletes the pending entry and rejects the caller with the
timeout error naming the armed budget.  (The callback closes over the
connection object; it is modelled through the registry entry of the
agent, which is that object in every scenario where the timer is still
armed.) -/
def fireRequestTimeout (conns : EdgeConnections) (agentId : String) (requestId : String)
    (timeoutMs : Nat) : EdgeConnections × List TunnelAction :=
  match mapGet? conns agentId with
  | none => (conns, [])
  | some connection =>
    (mapSet conns agentId { connection with
       pendingRequests := mapDelete connection.pendingRequests requestId },
     [TunnelAction.rejectPending requestId
       ("Request timeout after " ++ toString timeoutMs ++ "ms")])

/-- `handleHttpResponse`: correlate a response with its pending entry;
unknown agents and unknown request ids are logged and answered `false`
with no state change; a match cancels the timer, removes the entry and
resolves the caller. -/
def handleHttpResponse (conns : EdgeConnections) (agentId : String)
    (response : TunnelHttpResponse) :
    EdgeConnections × List TunnelAction × Bool :=
  match mapGet? conns agentId with
  | none => (conns, [TunnelAction.warnUnknownAgent agentId], false)
  | some connection =>
    match mapGet? connection.pendingRequests response.requestId with
    | none => (conns, [TunnelAction.warnUnknownRequest response.requestId], false)
    | some _ =>
      (mapSet conns agentId { connection with
         pendingRequests := mapDelete connection.pendingRequests response.requestId },
       [TunnelAction.cancelTimer response.requestId,
        TunnelAction.resolvePending response.requestId response.statusCode],
       true)

/-- `validateTunnelToken`: fail closed when no secret is configured (the JS
guard is falsy for an absent or empty configured token), else strict
equality with the presented token. -/
def validateTunnelToken (cfgToken : Option String) (token : Option String) : Bool :=
  match cfgToken with
  | none => false
  | some secret => if secret == "" then false else token == some secret

/-- The agentId format gate of `/edge/connect`, the regular expression
of one to sixty-four characters drawn from letters, digits, underscore
and dash. -/
def agentIdPatternOk (s : String) : Bool :=
  decide (1 ≤ s.length) && decide (s.length ≤ 64) &&
    s.data.all (fun c => c.isAlpha || c.isDigit || c == '_' || c == '-')

/-- Outcome of a connection attempt on `/edge/connect`, by close code. -/
inductive ConnectOutcome where
  | rejectedInvalidToken
  | rejectedMissingAgentId
  | rejectedBadFormat
  | accepted
deriving DecidableEq

/-- The guard sequence of the `/edge/connect` handler: token check, agentId
presence check, agentId format check, then registration. -/
def edgeConnectDecision (cfgToken : Option String) (agentId : Option String)
    (token : Option String) : ConnectOutcome :=
  if !(validateTunnelToken cfgToken token) then ConnectOutcome.rejectedInvalidToken
  else
    match agentId with
    | none => ConnectOutcome.rejectedMissingAgentId
    | some a =>
      if a.length == 0 then ConnectOutcome.rejectedMissingAgentId
      else if !(agentIdPatternOk a) then ConnectOutcome.rejectedBadFormat
      else ConnectOutcome.accepted

/-! Concrete sample data used by the witness and counterexample theorems. -/

/-- An empty store. -/
def dbEmpty : DB := { events := [], cases := [], slides := [], previews := [] }

/-- A well-formed `CaseUpserted` payload (status omitted, so it defaults). -/
def payloadCaseValid : JsonV := JsonV.obj
  [("case_id", JsonV.str "case-1"), ("title", JsonV.str "A"),
   ("patient_ref", JsonV.str "P1"),
   ("created_at", JsonV.str "2026-01-01T00:00:00Z"),
   ("updated_at", JsonV.str "2026-01-01T00:00:00Z")]

/-- A valid event of origin `edge-1`. -/
def evDup : EventInput :=
  { event_id := "e-dup-1", edge_id := "edge-1", aggregate_type := "case",
    aggregate_id := "case-1", type := "CaseUpserted",
    occurred_at := "2026-01-01T00:00:00Z", payload := payloadCaseValid }

/-- A store that already holds `evDup`. -/
def dbWithEvent : DB :=
  { events := [storedOf evDup], cases := [], slides := [], previews := [] }

/-- A `CaseUpserted` event whose payload fails schema validation (empty
object, required keys missing). -/
def evBadCase : EventInput :=
  { event_id := "e-bad-1", edge_id := "edge-2", aggregate_type := "case",
    aggregate_id := "case-2", type := "CaseUpserted",
    occurred_at := "2026-01-01T00:00:00Z", payload := JsonV.obj [] }

/-- A stored slide with a known scanner. -/
def slideAperio : SlideRead :=
  { slideId := "slide-1", caseId := some "case-1", svsFilename := "a.svs",
    width := 100, height := 50, mpp := 1, scanner := some "Aperio",
    hasPreview := false, externalCaseId := none, externalCaseBase := none,
    externalSlideLabel := none, confirmedCaseLink := false,
    lastEventId := "e0", lastOccurredAt := "2026-01-01T00:00:00Z" }

/-- A valid `SlideRegistered` payload that omits `scanner`. -/
def payloadSlideNoScanner : JsonV := JsonV.obj
  [("slide_id", JsonV.str "slide-1"), ("case_id", JsonV.str "case-1"),
   ("svs_filename", JsonV.str "a.svs"), ("width", JsonV.num 100),
   ("height", JsonV.num 50), ("mpp", JsonV.num 1)]

/-- The update event carrying `payloadSlideNoScanner`. -/
def evSlideUpd : EventInput :=
  { event_id := "e-slide-2", edge_id := "edge-1", aggregate_type := "slide",
    aggregate_id := "slide-1", type := "SlideRegistered",
    occurred_at := "2026-01-02T00:00:00Z", payload := payloadSlideNoScanner }

/-- Store holding only `slideAperio`. -/
def db5 : DB := { events := [], cases := [], slides := [slideAperio], previews := [] }

/-- A cloud-registered slide without a preview, under a cloud-side id. -/
def slideCloud : SlideRead :=
  { slideId := "slide-cloud-1", caseId := some "case-6", svsFilename := "b.svs",
    width := 10, height := 10, mpp := 1, scanner := none,
    hasPreview := false, externalCaseId := none, externalCaseBase := none,
    externalSlideLabel := none, confirmedCaseLink := false,
    lastEventId := "e0", lastOccurredAt := "2026-01-01T00:00:00Z" }

/-- A `PreviewPublished` payload that only carries the legacy tiles field,
without a trailing slash, and claims an edge-side slide id that matches no
stored slide. -/
def payloadPreviewLegacy : JsonV := JsonV.obj
  [("slide_id", JsonV.str "slide-edge-9"), ("case_id", JsonV.str "case-6"),
   ("wasabi_bucket", JsonV.str "b"), ("wasabi_region", JsonV.str "r"),
   ("wasabi_endpoint", JsonV.str "https://s3.example"), ("wasabi_prefix", JsonV.str "p"),
   ("thumb_key", JsonV.str "t"), ("manifest_key", JsonV.str "m"),
   ("low_tiles_prefix", JsonV.str "previews/slide-edge-9/tiles"),
   ("max_preview_level", JsonV.num 3), ("tile_size", JsonV.num 256),
   ("format", JsonV.str "jpg")]

/-- The event carrying `payloadPreviewLegacy`. -/
def evPreview : EventInput :=
  { event_id := "e-prev-1", edge_id := "edge-1", aggregate_type := "preview",
    aggregate_id := "slide-edge-9", type := "PreviewPublished",
    occurred_at := "2026-01-03T00:00:00Z", payload := payloadPreviewLegacy }

/-- Store holding only `slideCloud` (the unique preview-less slide of its
case). -/
def db6 : DB := { events := [], cases := [], slides := [slideCloud], previews := [] }

/-- Two preview-less slides of the same case (ambiguous fallback). -/
def db7 : DB :=
  { events := [], cases := [],
    slides := [{ slideCloud with slideId := "slide-a", caseId := some "case-7" },
               { slideCloud with slideId := "slide-b", caseId := some "case-7" }],
    previews := [] }

/-- A `PreviewPublished` payload for `case-7` with an unknown slide id. -/
def payloadPreview7 : JsonV := JsonV.obj
  [("slide_id", JsonV.str "slide-edge-7"), ("case_id", JsonV.str "case-7"),
   ("wasabi_bucket", JsonV.str "b"), ("wasabi_region", JsonV.str "r"),
   ("wasabi_endpoint", JsonV.str "https://s3.example"), ("wasabi_prefix", JsonV.str "p"),
   ("thumb_key", JsonV.str "t"), ("manifest_key", JsonV.str "m"),
   ("tiles_prefix", JsonV.str "previews/slide-edge-7/tiles/"),
   ("max_preview_level", JsonV.num 3), ("tile_size", JsonV.num 256),
   ("format", JsonV.str "jpg")]

/-- The event carrying `payloadPreview7`. -/
def evPreview7 : EventInput :=
  { event_id := "e-prev-7", edge_id := "edge-1", aggregate_type := "preview",
    aggregate_id := "slide-edge-7", type := "PreviewPublished",
    occurred_at := "2026-01-03T00:00:00Z", payload := payloadPreview7 }

/-- Two origin-valid events sharing an `event_id` (distinct rows, same
idempotency key). -/
def ev9a : EventInput :=
  { event_id := "e-dup-9", edge_id := "edge-9", aggregate_type := "case",
    aggregate_id := "case-9a", type := "CaseUpserted",
    occurred_at := "2026-01-01T00:00:00Z", payload := payloadCaseValid }

/-- Second event of the `e-dup-9` pair. -/
def ev9b : EventInput :=
  { event_id := "e-dup-9", edge_id := "edge-9", aggregate_type := "case",
    aggregate_id := "case-9b", type := "CaseUpserted",
    occurred_at := "2026-01-01T00:00:00Z", payload := payloadCaseValid }

/-- An event with a mismatched origin (`edge-2` inside a batch claiming
`edge-1`) whose id collides with `evGood10`. -/
def evBad10 : EventInput :=
  { event_id := "e-x-1", edge_id := "edge-2", aggregate_type := "case",
    aggregate_id := "case-1", type := "CaseUpserted",
    occurred_at := "2026-01-01T00:00:00Z", payload := payloadCaseValid }

/-- The matching-origin twin of `evBad10`. -/
def evGood10 : EventInput :=
  { event_id := "e-x-1", edge_id := "edge-1", aggregate_type := "case",
    aggregate_id := "case-1", type := "CaseUpserted",
    occurred_at := "2026-01-01T00:00:00Z", payload := payloadCaseValid }

/-- A pending tunnel request record. -/
def pend3 : PendingRequest := { timerMs := 8000, startedAt := 5 }

/-- A live connection for `edge-1` with one in-flight request. -/
def conn3 : EdgeConnection :=
  { wsId := 1, agentId := "edge-1", connectedAt := 0, lastSeen := 0,
    pendingRequests := [("req-1", pend3)] }

/-- Registry holding `conn3`. -/
def conns3 : EdgeConnections := [("edge-1", conn3)]

/-- A live connection for `edge-4` with no in-flight requests. -/
def conn4 : EdgeConnection :=
  { wsId := 4, agentId := "edge-4", connectedAt := 0, lastSeen := 0,
    pendingRequests := [] }

/-- Registry holding `conn4`. -/
def conns4 : EdgeConnections := [("edge-4", conn4)]

/-- A proxied request descriptor. -/
def req4 : TunnelHttpRequest :=
  { requestId := "req-9", method := "GET", url := "/v1/health", headers := [],
    bodyBase64 := none }

/-- A correlated response for `req4`. -/
def resp4 : TunnelHttpResponse :=
  { requestId := "req-9", statusCode := 200, headers := [], bodyBase64 := none }

/-! Helper lemmas. -/

/-- Projections never touch the event log: `projectCaseUpserted`. -/
theorem projectCaseUpserted_events (db : DB) (e : EventInput) :
    ((projectCaseUpserted db e).1).events = db.events := by
  unfold projectCaseUpserted
  rcases caseUpsertedParse e.payload with _ | p <;> rfl

/-- Projections never touch the event log: `projectSlideRegistered`. -/
theorem projectSlideRegistered_events (db : DB) (e : EventInput) :
    ((projectSlideRegistered db e).1).events = db.events := by
  unfold projectSlideRegistered
  rcases slideRegisteredParse e.payload with _ | p <;> rfl

/-- Projections never touch the event log: `applyPreviewToSlide`. -/
theorem applyPreviewToSlide_events (db : DB) (e : EventInput) (p : PreviewPublishedPayload)
    (tp : String) (target : SlideRead) :
    ((applyPreviewToSlide db e p tp target).1).events = db.events := rfl

/-- Projections never touch the event log: `projectPreviewPublished`. -/
theorem projectPreviewPublished_events (db : DB) (e : EventInput) :
    ((projectPreviewPublished db e).1).events = db.events := by
  unfold projectPreviewPublished
  split
  · rfl
  · split
    · rfl
    · split
      · exact applyPreviewToSlide_events ..
      · dsimp only
        split
        · exact applyPreviewToSlide_events ..
        · rfl

/-- Projections never touch the event log: `projectEvent`. -/
theorem projectEvent_events (db : DB) (e : EventInput) :
    ((projectEvent db e).1).events = db.events := by
  unfold projectEvent
  split
  · exact projectCaseUpserted_events ..
  · exact projectSlideRegistered_events ..
  · exact projectPreviewPublished_events ..
  · rfl

/-- Folding the projection phase over a batch leaves the event log as the
durable append left it. -/
theorem foldl_projectEvent_events (l : List EventInput) (db : DB) :
    (l.foldl (fun acc e => (projectEvent acc e).1) db).events = db.events := by
  induction l generalizing db with
  | nil => rfl
  | cons e l ih =>
    simpa [List.foldl_cons, projectEvent_events] using
      (ih ((projectEvent db e).1)).trans (projectEvent_events db e)

/-- Characterization of a successful `ingestEvents` run: the three result
sets are exactly the origin rejections, the valid ids already in the log,
and the valid new ids, and the event log grows by precisely the stored
rows of the new events. -/
theorem ingestEvents_ok_spec {db db' : DB} {edgeId : String} {events : List EventInput}
    {r : EventStoreResult}
    (h : ingestEvents db edgeId events = Except.ok (db', r)) :
    r.accepted = (newEventsOf db edgeId events).map (·.event_id) ∧
    r.duplicated = duplicatedOf db edgeId events ∧
    r.rejected = rejectionsOf edgeId events ∧
    db'.events = db.events ++ (newEventsOf db edgeId events).map storedOf := by
  by_cases h1 : events.isEmpty = true
  · have he := List.isEmpty_iff.mp h1
    subst he
    simp only [ingestEvents, List.isEmpty_nil, if_true, Except.ok.injEq, Prod.mk.injEq] at h
    obtain ⟨rfl, rfl⟩ := h
    simp [newEventsOf, validEventsOf, duplicatedOf, rejectionsOf]
  · by_cases h2 : (validEventsOf edgeId events).isEmpty = true
    · have hv := List.isEmpty_iff.mp h2
      simp only [ingestEvents, h1, h2, if_true, if_false, Except.ok.injEq, Prod.mk.injEq] at h
      obtain ⟨rfl, rfl⟩ := h
      simp [newEventsOf, duplicatedOf, hv]
    · by_cases h3 : (newEventsOf db edgeId events).isEmpty = true
      · have hn := List.isEmpty_iff.mp h3
        simp only [ingestEvents, h1, h2, h3, if_true, if_false, Except.ok.injEq,
          Prod.mk.injEq] at h
        obtain ⟨rfl, rfl⟩ := h
        simp [hn]
      · by_cases h4 : hasPairwiseDup ((newEventsOf db edgeId events).map (·.event_id)) = true
        · simp [ingestEvents, h1, h2, h3, h4] at h
        · simp only [ingestEvents, h1, h2, h3, h4, if_true, if_false, Except.ok.injEq,
            Prod.mk.injEq] at h
          obtain ⟨rfl, rfl⟩ := h
          exact ⟨rfl, rfl, rfl, foldl_projectEvent_events ..⟩

/-- Membership in the post-filter batch: the event is in the batch and no
rejection carries its id. -/
theorem mem_validEventsOf {e : EventInput} {edgeId : String} {events : List EventInput} :
    e ∈ validEventsOf edgeId events ↔
      e ∈ events ∧ ∀ rj ∈ rejectionsOf edgeId events, rj.event_id ≠ e.event_id := by
  simp only [validEventsOf, List.mem_filter, Bool.not_eq_true', List.any_eq_false,
    Bool.not_eq_true]
  constructor
  · rintro ⟨hmem, hall⟩
    exact ⟨hmem, fun rj hrj => by simpa using hall rj hrj⟩
  · rintro ⟨hmem, hall⟩
    exact ⟨hmem, fun rj hrj => by simpa using hall rj hrj⟩

/-- A mismatched-origin batch member contributes a rejection with its id. -/
theorem rejection_of_mismatch {eBad : EventInput} {edgeId : String} {events : List EventInput}
    (hmem : eBad ∈ events) (hne : eBad.edge_id ≠ edgeId) :
    ∃ rj ∈ rejectionsOf edgeId events, rj.event_id = eBad.event_id := by
  refine ⟨{ event_id := eBad.event_id,
            reason := "Event edge_id " ++ eBad.edge_id ++
              " does not match request edge_id " ++ edgeId }, ?_, rfl⟩
  simp only [rejectionsOf, List.mem_map, List.mem_filter]
  exact ⟨eBad, ⟨hmem, by simpa using hne⟩, rfl⟩

/-- Every rejection comes from a mismatched-origin batch member with the
same id. -/
theorem rejection_src {rj : Rejection} {edgeId : String} {events : List EventInput}
    (h : rj ∈ rejectionsOf edgeId events) :
    ∃ e2 ∈ events, e2.edge_id ≠ edgeId ∧ e2.event_id = rj.event_id := by
  simp only [rejectionsOf, List.mem_map, List.mem_filter] at h
  obtain ⟨e2, ⟨hmem, hne⟩, rfl⟩ := h
  exact ⟨e2, hmem, by simpa using hne, rfl⟩

/-- When every batch member sharing the id matches the origin, no rejection
carries that id. -/
theorem no_rejection_id {e : EventInput} {edgeId : String} {events : List EventInput}
    (hclean : ∀ e2 ∈ events, e2.event_id = e.event_id → e2.edge_id = edgeId) :
    ∀ rj ∈ rejectionsOf edgeId events, rj.event_id ≠ e.event_id := by
  intro rj hrj heq
  obtain ⟨e2, hmem, hne, hid⟩ := rejection_src hrj
  exact hne (hclean e2 hmem (hid.trans heq))

/-- Appending stored rows whose ids all differ from `tid` does not change
how many log rows carry `tid`. -/
theorem filter_append_stored {new : List EventInput} {dbEvents : List StoredEvent} {tid : String}
    (hnone : ∀ ev ∈ new, ev.event_id ≠ tid) :
    ((dbEvents ++ new.map storedOf).filter (fun ev => ev.eventId == tid)).length =
      (dbEvents.filter (fun ev => ev.eventId == tid)).length := by
  rw [List.filter_append]
  have hnil : (new.map storedOf).filter (fun ev => ev.eventId == tid) = [] := by
    rw [List.filter_eq_nil_iff]
    intro a ha
    obtain ⟨ev, hev, rfl⟩ := List.mem_map.mp ha
    simp only [storedOf, beq_iff_eq]
    exact hnone ev hev
  simp [hnil]

/-- C1 (amended): an origin-valid event whose `event_id` already exists in
the Event Log at the start of the batch is reported as duplicated, never as
accepted or rejected, and no additional copy of that id is written — so
resubmitting an already-stored `event_id` in a later batch leaves exactly
one durable copy.  (The original claim extended this to two fresh copies
inside one batch, where the code instead aborts the batch; see the
counterexample.) -/
theorem ingest_existing_eventId_duplicated (db db' : DB) (edgeId : String)
    (events : List EventInput) (r : EventStoreResult) (e : EventInput)
    (hok : ingestEvents db edgeId events = Except.ok (db', r))
    (hmem : e ∈ events) (hEdge : e.edge_id = edgeId)
    (hdup : eventIdExists db e.event_id = true)
    (hclean : ∀ e2 ∈ events, e2.event_id = e.event_id → e2.edge_id = edgeId) :
    e.event_id ∈ r.duplicated ∧
    e.event_id ∉ r.accepted ∧
    (∀ rj ∈ r.rejected, rj.event_id ≠ e.event_id) ∧
    (db'.events.filter (fun ev => ev.eventId == e.event_id)).length =
      (db.events.filter (fun ev => ev.eventId == e.event_id)).length := by
  obtain ⟨ha, hd, hr, hev⟩ := ingestEvents_ok_spec hok
  have hnorej := no_rejection_id (e := e) hclean
  have hvalid : e ∈ validEventsOf edgeId events := mem_validEventsOf.mpr ⟨hmem, hnorej⟩
  refine ⟨?_, ?_, ?_, ?_⟩
  · rw [hd]
    simp only [duplicatedOf, List.mem_map]
    exact ⟨e, List.mem_filter.mpr ⟨hvalid, hdup⟩, rfl⟩
  · rw [ha]
    intro hmm
    obtain ⟨ev, hev', hid⟩ := List.mem_map.mp hmm
    have hnot : eventIdExists db ev.event_id = false := by
      have := (List.mem_filter.mp hev').2
      simpa [Bool.not_eq_true'] using this
    rw [hid, hdup] at hnot
    exact Bool.noConfusion hnot
  · rw [hr]; exact hnorej
  · rw [hev]
    apply filter_append_stored
    intro ev hevmem heq
    have hnot : eventIdExists db ev.event_id = false := by
      have := (List.mem_filter.mp hevmem).2
      simpa [Bool.not_eq_true'] using this
    rw [heq, hdup] at hnot
    exact Bool.noConfusion hnot

/-- C1 counterexample: the same origin-valid event (fresh `event_id`)
submitted twice in one batch does not leave one durable copy; `createMany`
hits the unique index, the transaction aborts, the endpoint answers the
batch-level 500 and zero copies are durable. -/
theorem ingest_same_batch_duplicate_cex :
    ingestEvents dbEmpty "edge-1" [evDup, evDup] =
      Except.error "Unique constraint failed on the fields: (eventId)" ∧
    (syncEventsRoute dbEmpty "edge-1" none [evDup, evDup]).1.events = [] ∧
    (syncEventsRoute dbEmpty "edge-1" none [evDup, evDup]).2 =
      RouteReply.serverError "Internal server error during event ingestion" :=
  ⟨rfl, rfl, rfl⟩

/-- C1 witness: resubmitting the already-stored `evDup` is reported in
`duplicated` and not in `accepted`. -/
theorem ingest_existing_eventId_duplicated_witness :
    evDup.event_id ∈
      ({ accepted := [], duplicated := ["e-dup-1"], rejected := [] } : EventStoreResult).duplicated ∧
    evDup.event_id ∉
      ({ accepted := [], duplicated := ["e-dup-1"], rejected := [] } : EventStoreResult).accepted := by
  have H := ingest_existing_eventId_duplicated dbWithEvent dbWithEvent "edge-1" [evDup]
    { accepted := [], duplicated := ["e-dup-1"], rejected := [] } evDup rfl
    (List.mem_singleton_self evDup) rfl rfl
    (by intro e2 h2 _; rw [List.mem_singleton] at h2; subst h2; rfl)
  exact ⟨H.1, H.2.1⟩

/-- C10: when a batch pairs a mismatched-origin event with a matching-origin
event of the same `event_id`, the matching-origin event is excluded from
all further processing: not accepted, not duplicated, not stored, while the
shared id does appear in the rejection list (the valid set is filtered by
id membership in the rejections, not by event identity). -/
theorem origin_mismatch_excludes_same_id (db db' : DB) (edgeId : String)
    (events : List EventInput) (r : EventStoreResult) (e eBad : EventInput)
    (hok : ingestEvents db edgeId events = Except.ok (db', r))
    (hmem : e ∈ events) (hEdge : e.edge_id = edgeId)
    (hBadMem : eBad ∈ events) (hBadEdge : eBad.edge_id ≠ edgeId)
    (hShare : eBad.event_id = e.event_id) :
    e.event_id ∉ r.accepted ∧
    e.event_id ∉ r.duplicated ∧
    (∃ rj ∈ r.rejected, rj.event_id = e.event_id) ∧
    (db'.events.filter (fun ev => ev.eventId == e.event_id)).length =
      (db.events.filter (fun ev => ev.eventId == e.event_id)).length := by
  obtain ⟨ha, hd, hr, hev⟩ := ingestEvents_ok_spec hok
  have hrej : ∃ rj ∈ rejectionsOf edgeId events, rj.event_id = e.event_id := by
    obtain ⟨rj, hrj, hid⟩ := rejection_of_mismatch hBadMem hBadEdge
    exact ⟨rj, hrj, hid.trans hShare⟩
  have hnotvalid : ∀ ev ∈ validEventsOf edgeId events, ev.event_id ≠ e.event_id := by
    intro ev hv heq
    obtain ⟨_, hall⟩ := mem_validEventsOf.mp hv
    obtain ⟨rj, hrj, hid⟩ := hrej
    exact hall rj hrj (hid.trans heq.symm)
  refine ⟨?_, ?_, ?_, ?_⟩
  · rw [ha]
    intro hmm
    obtain ⟨ev, hev', hid⟩ := List.mem_map.mp hmm
    exact hnotvalid ev (List.mem_filter.mp hev').1 hid
  · rw [hd]
    intro hmm
    simp only [duplicatedOf, List.mem_map] at hmm
    obtain ⟨ev, hev', hid⟩ := hmm
    exact hnotvalid ev (List.mem_filter.mp hev').1 hid
  · rw [hr]; exact hrej
  · rw [hev]
    apply filter_append_stored
    intro ev hevmem heq
    exact hnotvalid ev (List.mem_filter.mp hevmem).1 heq

/-- C10 witness: `evGood10` (matching origin) vanishes from the result of a
batch that also contains its mismatched twin `evBad10`, while their shared
id sits in the rejections. -/
theorem origin_mismatch_excludes_same_id_witness :
    evGood10.event_id ∉ ([] : List String) ∧
    (∃ rj ∈ [({ event_id := "e-x-1",
                reason := "Event edge_id edge-2 does not match request edge_id edge-1" } :
                Rejection)],
      rj.event_id = evGood10.event_id) := by
  have H := origin_mismatch_excludes_same_id dbEmpty dbEmpty "edge-1" [evBad10, evGood10]
    { accepted := [], duplicated := [],
      rejected := [{ event_id := "e-x-1",
                     reason := "Event edge_id edge-2 does not match request edge_id edge-1" }] }
    evGood10 evBad10 rfl (by simp [evGood10, evBad10]) rfl (by simp [evBad10, evGood10])
    (by intro h; exact absurd h (by simp [evBad10])) rfl
  exact ⟨H.1, H.2.2.1⟩

/-- C9 (amended): a batch whose new events repeat an `event_id` trips the
unique index inside `createMany`; `ingestEvents` surfaces it as an error
rather than as a duplicate, and the endpoint turns it into the batch-level
500 with the store left untouched. -/
theorem ingest_duplicate_key_batch_error (db : DB) (edgeId : String) (cursor : Option String)
    (events : List EventInput)
    (hdup : hasPairwiseDup ((newEventsOf db edgeId events).map (·.event_id)) = true) :
    ingestEvents db edgeId events =
      Except.error "Unique constraint failed on the fields: (eventId)" ∧
    syncEventsRoute db edgeId cursor events =
      (db, RouteReply.serverError "Internal server error during event ingestion") := by
  have h3 : ¬((newEventsOf db edgeId events).isEmpty = true) := by
    intro h
    rw [List.isEmpty_iff.mp h] at hdup
    simp [hasPairwiseDup] at hdup
  have h2 : ¬((validEventsOf edgeId events).isEmpty = true) := by
    intro h
    exact h3 (by simp [newEventsOf, List.isEmpty_iff.mp h])
  have h1 : ¬(events.isEmpty = true) := by
    intro h
    exact h2 (by simp [validEventsOf, List.isEmpty_iff.mp h])
  have herr : ingestEvents db edgeId events =
      Except.error "Unique constraint failed on the fields: (eventId)" := by
    simp [ingestEvents, h1, h2, h3, hdup]
  exact ⟨herr, by simp [syncEventsRoute, herr]⟩

/-- C9 counterexample: two origin-valid fresh events sharing `e-dup-9` in
one batch make `ingestEvents` fail the whole batch (500), instead of
treating the collision as a duplicate. -/
theorem ingest_duplicate_key_cex :
    ingestEvents dbEmpty "edge-9" [ev9a, ev9b] =
      Except.error "Unique constraint failed on the fields: (eventId)" ∧
    (syncEventsRoute dbEmpty "edge-9" none [ev9a, ev9b]).2 =
      RouteReply.serverError "Internal server error during event ingestion" :=
  ⟨rfl, rfl⟩

/-- C9 witness: the amended theorem applied to the concrete `e-dup-9` batch. -/
theorem ingest_duplicate_key_batch_error_witness :
    syncEventsRoute dbEmpty "edge-9" none [ev9a, ev9b] =
      (dbEmpty, RouteReply.serverError "Internal server error during event ingestion") :=
  (ingest_duplicate_key_batch_error dbEmpty "edge-9" none [ev9a, ev9b] rfl).2

/-- C2: an event whose payload fails schema validation for its declared
type yields a projection failure result (not an exception) that leaves the
read models untouched, while the event itself is durably stored and
reported as accepted by the ingestion. -/
theorem projection_failure_event_still_accepted (db : DB) (edgeId : String) (e : EventInput)
    (hEdge : e.edge_id = edgeId)
    (hFresh : eventIdExists db e.event_id = false)
    (hfail : (e.type = "CaseUpserted" ∧ caseUpsertedParse e.payload = none) ∨
             (e.type = "SlideRegistered" ∧ slideRegisteredParse e.payload = none) ∨
             (e.type = "PreviewPublished" ∧ previewPublishedParse e.payload = none)) :
    (∀ d : DB, (projectEvent d e).2.success = false ∧ (projectEvent d e).1 = d) ∧
    ingestEvents db edgeId [e] =
      Except.ok ({ db with events := db.events ++ [storedOf e] },
        { accepted := [e.event_id], duplicated := [], rejected := [] }) := by
  have hproj : ∀ d : DB, (projectEvent d e).2.success = false ∧ (projectEvent d e).1 = d := by
    intro d
    rcases hfail with ⟨ht, hp⟩ | ⟨ht, hp⟩ | ⟨ht, hp⟩ <;>
      simp [projectEvent, ht, projectCaseUpserted, projectSlideRegistered,
        projectPreviewPublished, hp]
  have hproj2 : ∀ d : DB, (projectEvent d e).1 = d := fun d => (hproj d).2
  refine ⟨hproj, ?_⟩
  have hrej : rejectionsOf edgeId [e] = [] := by simp [rejectionsOf, hEdge]
  have hvalid : validEventsOf edgeId [e] = [e] := by simp [validEventsOf, hrej]
  have hnew : newEventsOf db edgeId [e] = [e] := by simp [newEventsOf, hvalid, hFresh]
  have hdupl : duplicatedOf db edgeId [e] = [] := by simp [duplicatedOf, hvalid, hFresh]
  simp [ingestEvents, hvalid, hnew, hdupl, hrej, hasPairwiseDup, hproj2]

/-- C2 witness: a `CaseUpserted` event with an empty-object payload is
stored, accepted, and projects to a failure result with no read-model
change. -/
theorem projection_failure_event_still_accepted_witness :
    (projectEvent dbEmpty evBadCase).2.success = false ∧
    (projectEvent dbEmpty evBadCase).1 = dbEmpty ∧
    ingestEvents dbEmpty "edge-2" [evBadCase] =
      Except.ok ({ events := [storedOf evBadCase], cases := [], slides := [],
                   previews := [] },
        { accepted := [evBadCase.event_id], duplicated := [], rejected := [] }) := by
  have H := projection_failure_event_still_accepted dbEmpty "edge-2" evBadCase rfl rfl
    (Or.inl ⟨rfl, rfl⟩)
  exact ⟨(H.1 dbEmpty).1, (H.1 dbEmpty).2, H.2⟩

/-- C5 (amended): on update of an existing slide, width, height and mpp
are overwritten only when positive in the payload (and the case id only
when non-empty), but the scanner column is overwritten unconditionally
with the payload value — an absent scanner writes `none` over a previously
stored value instead of leaving it unchanged. -/
theorem slideRegistered_update_merge (db : DB) (event : EventInput)
    (p : SlideRegisteredPayload)
    (hp : slideRegisteredParse event.payload = some p)
    (hex : db.slides.any (fun s => s.slideId == p.slideId) = true) :
    projectSlideRegistered db event =
      ({ db with
          slides := db.slides.map (fun s =>
            if s.slideId == p.slideId then
              { s with
                caseId := if p.caseId != "" then some p.caseId else s.caseId,
                svsFilename := p.svsFilename,
                width := if p.width > 0 then p.width else s.width,
                height := if p.height > 0 then p.height else s.height,
                mpp := if p.mpp > 0 then p.mpp else s.mpp,
                scanner := p.scanner,
                lastEventId := event.event_id,
                lastOccurredAt := event.occurred_at }
            else s) },
       { success := true, error := none }) := by
  simp [projectSlideRegistered, hp, upsertBy, hex]

/-- C5 counterexample: re-projecting a valid update payload that omits
`scanner` erases the previously stored scanner value (it becomes `none`),
refuting the claim that an omitted scanner leaves the stored value
unchanged. -/
theorem slideRegistered_scanner_erased_cex :
    db5.slides.map (fun s => s.scanner) = [some "Aperio"] ∧
    (projectEvent db5 evSlideUpd).1.slides.map (fun s => s.scanner) = [none] ∧
    (projectEvent db5 evSlideUpd).2 = { success := true, error := none } :=
  ⟨rfl, rfl, rfl⟩

/-- C5 witness: the amended merge theorem applied to the concrete
scanner-less update of `slide-1`. -/
theorem slideRegistered_update_merge_witness :
    (projectSlideRegistered db5 evSlideUpd).2 = { success := true, error := none } ∧
    (projectSlideRegistered db5 evSlideUpd).1.slides.map (fun s => s.scanner) = [none] := by
  have H := slideRegistered_update_merge db5 evSlideUpd
    { slideId := "slide-1", caseId := "case-1", svsFilename := "a.svs",
      width := 100, height := 50, mpp := 1, scanner := none } rfl rfl
  exact ⟨congrArg Prod.snd H, by rw [congrArg Prod.fst H]; rfl⟩

/-- The upsert result always contains a row satisfying any property that
holds of the create record and is preserved by updating a matching row. -/
theorem upsertBy_exists {α : Type} (found : α → Bool) (create : α) (update : α → α)
    (xs : List α) (Q : α → Prop) (hc : Q create) (hu : ∀ x, found x = true → Q (update x)) :
    ∃ a ∈ upsertBy found create update xs, Q a := by
  unfold upsertBy
  by_cases h : xs.any found = true
  · rw [if_pos h]
    obtain ⟨x, hx, hfx⟩ := List.any_eq_true.mp h
    refine ⟨update x, List.mem_map.mpr ⟨x, hx, ?_⟩, hu x hfx⟩
    rw [if_pos hfx]
  · rw [if_neg h]
    exact ⟨create, List.mem_append.mpr (Or.inr (List.mem_singleton_self _)), hc⟩

/-- The normalized tiles prefix always ends in the path separator. -/
theorem ensureTrailingSlash_last (s : String) :
    (ensureTrailingSlash s).data.getLast? = some '/' := by
  unfold ensureTrailingSlash
  split
  · assumption
  · rw [String.data_append]
    exact List.getLast?_concat _

/-- What the write phase guarantees for a resolved target: success, a
preview asset keyed by the resolved slide id carrying the given tiles
prefix, and `hasPreview = true` on every slide row with that id. -/
theorem applyPreviewToSlide_spec (db : DB) (event : EventInput) (p : PreviewPublishedPayload)
    (tp : String) (target : SlideRead) :
    (applyPreviewToSlide db event p tp target).2 = { success := true, error := none } ∧
    (∃ a ∈ (applyPreviewToSlide db event p tp target).1.previews,
        a.slideId = target.slideId ∧ a.lowTilesPrefix = tp) ∧
    (∀ s ∈ (applyPreviewToSlide db event p tp target).1.slides,
        s.slideId = target.slideId → s.hasPreview = true) := by
  refine ⟨rfl, ?_, ?_⟩
  · exact upsertBy_exists _ _ _ _
      (fun (a : PreviewAsset) => a.slideId = target.slideId ∧ a.lowTilesPrefix = tp)
      ⟨rfl, rfl⟩ (fun x hf => ⟨by simpa using hf, rfl⟩)
  · intro s hs heq
    obtain ⟨s0, hs0, rfl⟩ := List.mem_map.mp hs
    by_cases h : (s0.slideId == target.slideId) = true
    · rw [if_pos h]
    · rw [if_neg h] at heq ⊢
      exact absurd heq (by simpa using h)

/-- C6: whenever a `PreviewPublished` projection resolves a target slide
(by exact id or by the unique fallback), it succeeds, stores a preview
asset keyed by the resolved slide id — the cloud-side id, even when it
differs from the payload slide id — whose tiles prefix is the raw prefix
(preferring `tiles_prefix` over the legacy field, per `rawTilesPrefixOf`)
normalized to end in the path separator, and flips `hasPreview` on the
resolved slide. -/
theorem previewPublished_resolved_target (db : DB) (event : EventInput)
    (p : PreviewPublishedPayload) (raw : String) (target : SlideRead)
    (hp : previewPublishedParse event.payload = some p)
    (hraw : rawTilesPrefixOf p = some raw)
    (ht : resolveTarget db p = some target) :
    (projectPreviewPublished db event).2 = { success := true, error := none } ∧
    (∃ a ∈ (projectPreviewPublished db event).1.previews,
        a.slideId = target.slideId ∧
        a.lowTilesPrefix = ensureTrailingSlash raw ∧
        a.lowTilesPrefix.data.getLast? = some '/') ∧
    (∀ s ∈ (projectPreviewPublished db event).1.slides,
        s.slideId = target.slideId → s.hasPreview = true) := by
  have hmain : projectPreviewPublished db event =
      applyPreviewToSlide db event p (ensureTrailingSlash raw) target := by
    simp only [projectPreviewPublished, hp, hraw]
    unfold resolveTarget at ht
    cases hfind : db.slides.find? (fun s => s.slideId == p.slideId) with
    | some s =>
      simp only [hfind] at ht ⊢
      obtain rfl : s = target := by injection ht
      rfl
    | none =>
      simp only [hfind] at ht ⊢
      rcases hl : (db.slides.filter (fun s => !s.hasPreview && s.caseId == some p.caseId)).take 10
        with _ | ⟨x, _ | ⟨y, t⟩⟩ <;> simp only [hl] at ht ⊢
      · exact absurd ht (by simp)
      · obtain rfl : x = target := by injection ht
        rfl
      · exact absurd ht (by simp)
  rw [hmain]
  obtain ⟨h1, h2, h3⟩ := applyPreviewToSlide_spec db event p (ensureTrailingSlash raw) target
  refine ⟨h1, ?_, h3⟩
  obtain ⟨a, ha, haId, haTp⟩ := h2
  exact ⟨a, ha, haId, haTp, by rw [haTp]; exact ensureTrailingSlash_last raw⟩

/-- C6 witness: the legacy-field payload with a slash-less prefix resolves
(by fallback) to `slide-cloud-1`, which differs from the payload slide id
`slide-edge-9`, and the stored asset carries the normalized prefix. -/
theorem previewPublished_resolved_target_witness :
    (projectPreviewPublished db6 evPreview).2 = { success := true, error := none } ∧
    (∃ a ∈ (projectPreviewPublished db6 evPreview).1.previews,
        a.slideId = slideCloud.slideId ∧
        a.lowTilesPrefix = ensureTrailingSlash "previews/slide-edge-9/tiles" ∧
        a.lowTilesPrefix.data.getLast? = some '/') := by
  have H := previewPublished_resolved_target db6 evPreview
    { slideId := "slide-edge-9", caseId := "case-6", wasabiBucket := "b",
      wasabiRegion := "r", wasabiEndpoint := "https://s3.example", wasabiPrefix := "p",
      thumbKey := "t", manifestKey := "m", tilesPrefix := none,
      lowTilesPrefix := some "previews/slide-edge-9/tiles", maxPreviewLevel := 3,
      tileSize := 256, format := "jpg" }
    "previews/slide-edge-9/tiles" slideCloud rfl rfl rfl
  exact ⟨H.1, H.2.1⟩

/-- C7: when the payload slide id matches nothing, the projection falls
back to the preview-less slides of the payload case: a unique candidate
becomes the resolved target and receives the preview, while zero or
several candidates make the projection a successful no-op that performs no
read-model write. -/
theorem previewPublished_fallback_resolution (db : DB) (event : EventInput)
    (p : PreviewPublishedPayload) (raw : String)
    (hp : previewPublishedParse event.payload = some p)
    (hraw : rawTilesPrefixOf p = some raw)
    (hnone : db.slides.find? (fun s => s.slideId == p.slideId) = none) :
    ((db.slides.filter (fun sl => !sl.hasPreview && sl.caseId == some p.caseId)).length ≠ 1 →
      projectPreviewPublished db event = (db, { success := true, error := none })) ∧
    (∀ s : SlideRead,
      db.slides.filter (fun sl => !sl.hasPreview && sl.caseId == some p.caseId) = [s] →
      resolveTarget db p = some s ∧
      (∃ a ∈ (projectPreviewPublished db event).1.previews, a.slideId = s.slideId) ∧
      (∀ s2 ∈ (projectPreviewPublished db event).1.slides,
        s2.slideId = s.slideId → s2.hasPreview = true)) := by
  have hred : projectPreviewPublished db event =
      (match (db.slides.filter (fun sl => !sl.hasPreview && sl.caseId == some p.caseId)).take 10
        with
      | [matched] => applyPreviewToSlide db event p (ensureTrailingSlash raw) matched
      | _ => (db, { success := true, error := none })) := by
    simp only [projectPreviewPublished, hp, hraw, hnone]
  constructor
  · intro hlen
    have htake :
        ((db.slides.filter (fun sl => !sl.hasPreview && sl.caseId == some p.caseId)).take
          10).length ≠ 1 := by
      rw [List.length_take]
      omega
    rw [hred]
    rcases hl : (db.slides.filter (fun sl => !sl.hasPreview && sl.caseId == some p.caseId)).take 10
      with _ | ⟨x, _ | ⟨y, t⟩⟩
    · simp [hl]
    · exact absurd (by simp [hl]) htake
    · simp [hl]
  · intro s hs
    have htake : (db.slides.filter (fun sl => !sl.hasPreview && sl.caseId == some p.caseId)).take
        10 = [s] := by
      rw [hs]
      rfl
    have hres : resolveTarget db p = some s := by
      unfold resolveTarget
      simp only [hnone, htake]
    have happ : projectPreviewPublished db event =
        applyPreviewToSlide db event p (ensureTrailingSlash raw) s := by
      rw [hred, htake]
    obtain ⟨_, h2, h3⟩ := applyPreviewToSlide_spec db event p (ensureTrailingSlash raw) s
    refine ⟨hres, ?_, ?_⟩
    · rw [happ]
      obtain ⟨a, ha, haId, _⟩ := h2
      exact ⟨a, ha, haId⟩
    · rw [happ]
      exact h3

/-- C7 witness: with two preview-less slides of `case-7` and no exact id
match, the projection is a successful no-op that leaves the store
untouched. -/
theorem previewPublished_fallback_resolution_witness :
    projectPreviewPublished db7 evPreview7 = (db7, { success := true, error := none }) := by
  have H := previewPublished_fallback_resolution db7 evPreview7
    { slideId := "slide-edge-7", caseId := "case-7", wasabiBucket := "b",
      wasabiRegion := "r", wasabiEndpoint := "https://s3.example", wasabiPrefix := "p",
      thumbKey := "t", manifestKey := "m",
      tilesPrefix := some "previews/slide-edge-7/tiles/", lowTilesPrefix := none,
      maxPreviewLevel := 3, tileSize := 256, format := "jpg" }
    "previews/slide-edge-7/tiles/" rfl rfl rfl
  exact H.1 (by decide)

/-- Updating-in-place hits the matching key first. -/
theorem find?_map_set {α : Type} (m : List (String × α)) (k : String) (v : α)
    (h : m.any (fun kv => kv.1 == k) = true) :
    (m.map (fun kv => if kv.1 == k then (k, v) else kv)).find? (fun kv => kv.1 == k)
      = some (k, v) := by
  induction m with
  | nil => simp at h
  | cons a m ih =>
    by_cases ha : (a.1 == k) = true
    · rw [List.map_cons, if_pos ha,
        @List.find?_cons_of_pos _ (fun kv => kv.1 == k) (k, v) _ (by simp)]
    · have h' : m.any (fun kv => kv.1 == k) = true := by
        simpa [List.any_cons, ha] using h
      rw [List.map_cons, if_neg ha,
        @List.find?_cons_of_neg _ (fun kv => kv.1 == k) a _ ha, ih h']

/-- JS `Map.get` after `Map.set` of the same key. -/
theorem mapGet?_mapSet_self {α : Type} (m : List (String × α)) (k : String) (v : α) :
    mapGet? (mapSet m k v) k = some v := by
  unfold mapGet? mapSet
  by_cases h : m.any (fun kv => kv.1 == k) = true
  · rw [if_pos h, find?_map_set m k v h]
    rfl
  · rw [if_neg h]
    have hf : m.any (fun kv => kv.1 == k) = false := Bool.eq_false_iff.mpr h
    have h1 : m.find? (fun kv => kv.1 == k) = none :=
      List.find?_eq_none.mpr (fun x hx => List.any_eq_false.mp hf x hx)
    rw [List.find?_append, h1]
    simp

/-- JS `Map.get` after `Map.delete` of the same key. -/
theorem mapGet?_mapDelete_self {α : Type} (m : List (String × α)) (k : String) :
    mapGet? (mapDelete m k) k = none := by
  unfold mapGet? mapDelete
  have h1 : (m.filter (fun kv => !(kv.1 == k))).find? (fun kv => kv.1 == k) = none :=
    List.find?_eq_none.mpr (fun x hx => by
      have := (List.mem_filter.mp hx).2
      simpa using this)
  rw [h1]
  rfl

/-- The executable duplicate check agrees with `Nodup`. -/
theorem hasPairwiseDup_eq_false_iff (xs : List String) :
    hasPairwiseDup xs = false ↔ xs.Nodup := by
  induction xs with
  | nil => simp [hasPairwiseDup]
  | cons x xs ih =>
    simp [hasPairwiseDup, Bool.or_eq_false_iff, ih, List.elem_iff]

/-- JS `Map.set` preserves key uniqueness. -/
theorem mapSet_keys_nodup {α : Type} (m : List (String × α)) (k : String) (v : α)
    (h : hasPairwiseDup (m.map (·.1)) = false) :
    hasPairwiseDup ((mapSet m k v).map (·.1)) = false := by
  unfold mapSet
  by_cases hmem : m.any (fun kv => kv.1 == k) = true
  · rw [if_pos hmem]
    have hkeys : (m.map (fun kv => if kv.1 == k then (k, v) else kv)).map (·.1)
        = m.map (·.1) := by
      rw [List.map_map]
      apply List.map_congr_left
      intro kv _
      by_cases hkv : (kv.1 == k) = true
      · simp only [Function.comp_apply, if_pos hkv]
        exact (beq_iff_eq.mp hkv).symm
      · simp only [Function.comp_apply, if_neg hkv]
    rw [hkeys]
    exact h
  · rw [if_neg hmem, List.map_append]
    rw [hasPairwiseDup_eq_false_iff] at h ⊢
    rw [List.nodup_append]
    refine ⟨h, List.nodup_singleton _, ?_⟩
    intro a ha hb
    simp only [List.map_cons, List.map_nil, List.mem_singleton] at hb
    have hf : m.any (fun kv => kv.1 == k) = false := Bool.eq_false_iff.mpr hmem
    obtain ⟨kv, hkv, hkveq⟩ := List.mem_map.mp ha
    exact absurd (by simp [hkveq, hb] : (kv.1 == k) = true)
      (List.any_eq_false.mp hf kv hkv)

/-- C3: registering a connection for an id that already has a live one
closes the old socket with the distinguishable `Replaced by new connection`
reason, cancels the timer of every pending request of the old connection
and rejects it with the `Connection replaced` error, installs the new
transport with an empty pending map, and preserves the at-most-one-entry-
per-agent-id shape of the registry. -/
theorem registerEdge_replacement (conns : EdgeConnections) (agentId : String)
    (wsId now : Nat) (old : EdgeConnection)
    (hold : mapGet? conns agentId = some old)
    (hnd : hasPairwiseDup (conns.map (·.1)) = false) :
    mapGet? (registerEdge conns agentId wsId now).1 agentId =
      some { wsId := wsId, agentId := agentId, connectedAt := now, lastSeen := now,
             pendingRequests := [] } ∧
    TunnelAction.closeWs old.wsId 1000 "Replaced by new connection" ∈
      (registerEdge conns agentId wsId now).2 ∧
    (∀ rp ∈ old.pendingRequests,
        TunnelAction.cancelTimer rp.1 ∈ (registerEdge conns agentId wsId now).2 ∧
        TunnelAction.rejectPending rp.1 "Connection replaced" ∈
          (registerEdge conns agentId wsId now).2) ∧
    hasPairwiseDup ((registerEdge conns agentId wsId now).1.map (·.1)) = false := by
  have hacts : (registerEdge conns agentId wsId now).2 =
      TunnelAction.closeWs old.wsId 1000 "Replaced by new connection" ::
      old.pendingRequests.flatMap (fun rp =>
        [TunnelAction.cancelTimer rp.1,
         TunnelAction.rejectPending rp.1 "Connection replaced"]) := by
    simp [registerEdge, hold]
  have hconn : (registerEdge conns agentId wsId now).1 =
      mapSet conns agentId
        { wsId := wsId, agentId := agentId, connectedAt := now, lastSeen := now,
          pendingRequests := [] } := rfl
  refine ⟨?_, ?_, ?_, ?_⟩
  · rw [hconn]
    exact mapGet?_mapSet_self ..
  · rw [hacts]
    exact List.mem_cons_self ..
  · intro rp hrp
    rw [hacts]
    exact ⟨List.mem_cons_of_mem _ (List.mem_flatMap.mpr ⟨rp, hrp, by simp⟩),
           List.mem_cons_of_mem _ (List.mem_flatMap.mpr ⟨rp, hrp, by simp⟩)⟩
  · rw [hconn]
    exact mapSet_keys_nodup _ _ _ hnd

/-- C3 witness: replacing the live `edge-1` connection (which has one
pending request) installs the fresh socket with an empty pending map and
emits the close action for the old socket. -/
theorem registerEdge_replacement_witness :
    mapGet? (registerEdge conns3 "edge-1" 2 7).1 "edge-1" =
      some { wsId := 2, agentId := "edge-1", connectedAt := 7, lastSeen := 7,
             pendingRequests := [] } ∧
    TunnelAction.closeWs conn3.wsId 1000 "Replaced by new connection" ∈
      (registerEdge conns3 "edge-1" 2 7).2 ∧
    TunnelAction.rejectPending "req-1" "Connection replaced" ∈
      (registerEdge conns3 "edge-1" 2 7).2 := by
  have H := registerEdge_replacement conns3 "edge-1" 2 7 conn3 rfl rfl
  exact ⟨H.1, H.2.1, (H.2.2.1 ("req-1", pend3) (by simp [conn3])).2⟩

/-- C4: a successfully sent request installs a pending entry whose timer is
armed with the configured `timeoutMs`; when that timer fires, the entry is
removed at that moment and the caller is rejected with the timeout error
naming the budget; a correlated response arriving afterwards finds no
pending entry, returns `false` with only the `response for unknown
request` warning, and changes no state. -/
theorem tunnel_timeout_then_late_response (conns conns1 : EdgeConnections)
    (agentId : String) (request : TunnelHttpRequest) (timeoutMs now : Nat)
    (acts1 : List TunnelAction)
    (hsend : sendHttpRequest conns agentId request timeoutMs now true =
      (conns1, acts1, Except.ok ())) :
    ((mapGet? conns1 agentId).bind
        (fun c => mapGet? c.pendingRequests request.requestId)) =
      some { timerMs := timeoutMs, startedAt := now } ∧
    (fireRequestTimeout conns1 agentId request.requestId timeoutMs).2 =
      [TunnelAction.rejectPending request.requestId
        ("Request timeout after " ++ toString timeoutMs ++ "ms")] ∧
    ((mapGet? (fireRequestTimeout conns1 agentId request.requestId timeoutMs).1 agentId).bind
        (fun c => mapGet? c.pendingRequests request.requestId)) = none ∧
    (∀ response : TunnelHttpResponse, response.requestId = request.requestId →
      handleHttpResponse (fireRequestTimeout conns1 agentId request.requestId timeoutMs).1
          agentId response =
        ((fireRequestTimeout conns1 agentId request.requestId timeoutMs).1,
         [TunnelAction.warnUnknownRequest response.requestId], false)) := by
  unfold sendHttpRequest at hsend
  cases hconn : mapGet? conns agentId with
  | none =>
    rw [hconn] at hsend
    exact absurd (congrArg (fun t => t.2.2) hsend) (by simp)
  | some connection =>
    rw [hconn] at hsend
    dsimp only [if_true] at hsend
    obtain rfl : conns1 =
        mapSet conns agentId
          { connection with
            pendingRequests := mapSet connection.pendingRequests request.requestId
              { timerMs := timeoutMs, startedAt := now } } :=
      (congrArg (fun t => t.1) hsend).symm
    have hget1 : mapGet?
        (mapSet conns agentId
          { connection with
            pendingRequests := mapSet connection.pendingRequests request.requestId
              { timerMs := timeoutMs, startedAt := now } }) agentId =
        some { connection with
          pendingRequests := mapSet connection.pendingRequests request.requestId
            { timerMs := timeoutMs, startedAt := now } } :=
      mapGet?_mapSet_self ..
    have hfire : fireRequestTimeout
        (mapSet conns agentId
          { connection with
            pendingRequests := mapSet connection.pendingRequests request.requestId
              { timerMs := timeoutMs, startedAt := now } }) agentId request.requestId timeoutMs =
        (mapSet
          (mapSet conns agentId
            { connection with
              pendingRequests := mapSet connection.pendingRequests request.requestId
                { timerMs := timeoutMs, startedAt := now } }) agentId
          { connection with
            pendingRequests := mapDelete
              (mapSet connection.pendingRequests request.requestId
                { timerMs := timeoutMs, startedAt := now }) request.requestId },
         [TunnelAction.rejectPending request.requestId
           ("Request timeout after " ++ toString timeoutMs ++ "ms")]) := by
      unfold fireRequestTimeout
      rw [hget1]
    refine ⟨?_, ?_, ?_, ?_⟩
    · rw [hget1]
      exact mapGet?_mapSet_self ..
    · rw [hfire]
    · rw [hfire]
      dsimp only
      rw [mapGet?_mapSet_self]
      dsimp only [Option.bind]
      exact mapGet?_mapDelete_self ..
    · intro response hresp
      rw [hfire]
      dsimp only
      unfold handleHttpResponse
      rw [mapGet?_mapSet_self, hresp]
      dsimp only
      rw [mapGet?_mapDelete_self]

/-- C4 witness: the concrete `req-9` request to the connected `edge-4`,
timed out and then answered late. -/
theorem tunnel_timeout_then_late_response_witness :
    (fireRequestTimeout (sendHttpRequest conns4 "edge-4" req4 8000 3 true).1 "edge-4"
        req4.requestId 8000).2 =
      [TunnelAction.rejectPending req4.requestId "Request timeout after 8000ms"] ∧
    handleHttpResponse
        (fireRequestTimeout (sendHttpRequest conns4 "edge-4" req4 8000 3 true).1 "edge-4"
          req4.requestId 8000).1 "edge-4" resp4 =
      ((fireRequestTimeout (sendHttpRequest conns4 "edge-4" req4 8000 3 true).1 "edge-4"
          req4.requestId 8000).1,
       [TunnelAction.warnUnknownRequest resp4.requestId], false) := by
  have H := tunnel_timeout_then_late_response conns4
    (sendHttpRequest conns4 "edge-4" req4 8000 3 true).1 "edge-4" req4 8000 3
    (sendHttpRequest conns4 "edge-4" req4 8000 3 true).2.1 rfl
  exact ⟨H.2.1, H.2.2.2 resp4 rfl⟩

/-- C8: with no tunnel secret configured every connection attempt is
rejected regardless of the presented token, and with a configured secret
an accepted connection implies the presented bearer token equals the
secret and the agent id matches the restricted pattern. -/
theorem edge_auth_fail_closed (agentId token : Option String) (secret : String) :
    edgeConnectDecision none agentId token ≠ ConnectOutcome.accepted ∧
    (edgeConnectDecision (some secret) agentId token = ConnectOutcome.accepted →
      token = some secret ∧ ∃ a, agentId = some a ∧ agentIdPatternOk a = true) := by
  constructor
  · simp [edgeConnectDecision, validateTunnelToken]
  · intro hacc
    unfold edgeConnectDecision at hacc
    by_cases hv : validateTunnelToken (some secret) token = true
    · have htok : token = some secret := by
        simp only [validateTunnelToken] at hv
        by_cases hs : (secret == "") = true
        · rw [if_pos hs] at hv
          exact absurd hv (by simp)
        · rw [if_neg hs] at hv
          simpa using hv
      refine ⟨htok, ?_⟩
      rw [if_neg (by simp [hv])] at hacc
      cases agentId with
      | none => simp at hacc
      | some a =>
        dsimp only at hacc
        refine ⟨a, rfl, ?_⟩
        by_cases hlen : (a.length == 0) = true
        · rw [if_pos hlen] at hacc
          simp at hacc
        · rw [if_neg hlen] at hacc
          by_cases hpat : agentIdPatternOk a = true
          · exact hpat
          · rw [if_pos (by simp [Bool.eq_false_iff.mpr hpat])] at hacc
            simp at hacc
    · rw [if_pos (by simp [Bool.eq_false_iff.mpr hv])] at hacc
      simp at hacc

/-- C8 witness: the fail-closed branch at a concrete token, and the
accepted branch forcing token equality for a concrete configured secret. -/
theorem edge_auth_fail_closed_witness :
    edgeConnectDecision none (some "edge-1") (some "secret123") ≠ ConnectOutcome.accepted ∧
    (some "secret123" : Option String) = some "secret123" := by
  have H := edge_auth_fail_closed (some "edge-1") (some "secret123") "secret123"
  exact ⟨H.1, (H.2 (by rfl)).1⟩
